import Mathlib

set_option maxHeartbeats 1000000

/-!
Verification of the coordinates-checker facility validation pipeline.

The definitions below are a shallow embedding of `src/frontend/script.js`
(and, where a claim compares the two variants, of `src/unnamed/part_000`).
JS strings are modelled as Lean `String`s over their character lists; JS
numbers that carry coordinates or populations are modelled as `ℚ`;
`undefined`/absent fields are modelled as `Option`; the DOM / rendering
side effects of the source are not part of any claim and are omitted.
JS `toLowerCase` is modelled on the basic-latin range (the same range
handled by concrete inputs in this development), and `normalize("NFD")`
is modelled as the identity, i.e. strings are taken to be NFD-normal
(true for all ASCII strings).
-/

namespace CoordChecker

/-- JS `String.prototype.toLowerCase` on one character, basic-latin range:
map `A`-`Z` (codepoints 65-90) to `a`-`z` (codepoints 97-122). -/
def toLowerChar (c : Char) : Char :=
  if 65 ≤ c.toNat ∧ c.toNat ≤ 90 then Char.ofNat (c.toNat + 32) else c

/-- JS `str.toLowerCase()`. -/
def toLowerS (s : String) : String :=
  ⟨s.data.map toLowerChar⟩

/-- JS `str.replace(/\s+/g, "")`: remove every whitespace character. -/
def stripWhitespaceS (s : String) : String :=
  ⟨s.data.filter (fun c => !c.isWhitespace)⟩

/-- A combining diacritical mark, the range `[̀-ͯ]` of the source. -/
def isCombiningMark (c : Char) : Bool :=
  decide (0x300 ≤ c.toNat) && decide (c.toNat ≤ 0x36F)

/-- JS `str.normalize("NFD").replace(/[̀-ͯ]/g, "")` on NFD-normal
strings: remove every combining diacritical mark. -/
def stripDiacriticsS (s : String) : String :=
  ⟨s.data.filter (fun c => !isCombiningMark c)⟩

/-- JS `str.trim()`: drop leading and trailing whitespace. -/
def trimS (s : String) : String :=
  ⟨((s.data.dropWhile Char.isWhitespace).reverse.dropWhile Char.isWhitespace).reverse⟩

/-- JS `a.startsWith(b)`. -/
def jsStartsWith (a b : String) : Bool :=
  b.data.isPrefixOf a.data

/-- JS `a || b` on strings (first operand when truthy, i.e. non-empty). -/
def jsOrS (a b : String) : String :=
  if a = "" then b else a

/-- `normalize` of `src/frontend/script.js` (line 301):
`str ? str.toLowerCase().replace(/\s+/g, "").trim() : ""`. -/
def normalize (str : String) : String :=
  if str = "" then "" else trimS (stripWhitespaceS (toLowerS str))

/-- `isSimilar` of `src/frontend/script.js` (lines 395-408): reject if either
side is falsy, else lowercase, strip diacritics (after NFD) and trim both
sides and accept equality or either-direction prefix. -/
def isSimilar (a b : String) : Bool :=
  if a = "" || b = "" then false
  else
    let a2 := trimS (stripDiacriticsS (toLowerS a))
    let b2 := trimS (stripDiacriticsS (toLowerS b))
    a2 == b2 || jsStartsWith a2 b2 || jsStartsWith b2 a2

/-- The admin-check match computed at `src/frontend/script.js` lines 623-625:
both the uploaded `Admin1` and the OSM admin name go through `normalize`
and then through `isSimilar`. -/
def admin1Match (uploadedAdmin1 osmAdmin1 : String) : Bool :=
  isSimilar (normalize uploadedAdmin1) (normalize osmAdmin1)

/-! Character-level bridge lemmas. -/

theorem char_toNat_inj {a b : Char} (h : a.toNat = b.toNat) : a = b := by
  have h2 := congrArg Char.ofNat h
  rwa [Char.ofNat_toNat, Char.ofNat_toNat] at h2

theorem toNat_charOfNat_of_valid (n : ℕ) (h : n < 0xd800) :
    (Char.ofNat n).toNat = n := by
  unfold Char.ofNat
  rw [dif_pos (Or.inl h)]
  rfl

theorem toNat_toLowerChar (c : Char) :
    (toLowerChar c).toNat = if 65 ≤ c.toNat ∧ c.toNat ≤ 90 then c.toNat + 32 else c.toNat := by
  unfold toLowerChar
  split_ifs with h
  · exact toNat_charOfNat_of_valid _ (by omega)
  · rfl

theorem toLowerChar_of_not_upper (d : Char) (h : ¬(65 ≤ d.toNat ∧ d.toNat ≤ 90)) :
    toLowerChar d = d := by
  unfold toLowerChar
  rw [if_neg h]

theorem toLowerChar_idem (c : Char) : toLowerChar (toLowerChar c) = toLowerChar c := by
  by_cases h : 65 ≤ c.toNat ∧ c.toNat ≤ 90
  · have ht : (toLowerChar c).toNat = c.toNat + 32 := by rw [toNat_toLowerChar, if_pos h]
    apply toLowerChar_of_not_upper
    rw [ht]
    omega
  · rw [toLowerChar_of_not_upper c h]
    exact toLowerChar_of_not_upper c h

theorem char_eq_iff_toNat (c d : Char) : (c = d) ↔ (c.toNat = d.toNat) :=
  ⟨fun he => by rw [he], fun hn => char_toNat_inj hn⟩

theorem isWhitespace_of_toNat (c : Char) :
    c.isWhitespace =
      (decide (c.toNat = 32) || decide (c.toNat = 9) || decide (c.toNat = 13) ||
        decide (c.toNat = 10)) := by
  have t1 : (' ').toNat = 32 := by decide
  have t2 : ('\t').toNat = 9 := by decide
  have t3 : ('\r').toNat = 13 := by decide
  have t4 : ('\n').toNat = 10 := by decide
  unfold Char.isWhitespace
  simp only [char_eq_iff_toNat, t1, t2, t3, t4]

theorem isWhitespace_toLowerChar (c : Char) :
    (toLowerChar c).isWhitespace = c.isWhitespace := by
  by_cases h : 65 ≤ c.toNat ∧ c.toNat ≤ 90
  · have ht : (toLowerChar c).toNat = c.toNat + 32 := by rw [toNat_toLowerChar, if_pos h]
    rw [isWhitespace_of_toNat, isWhitespace_of_toNat, ht]
    have l1 : (decide (c.toNat + 32 = 32) || decide (c.toNat + 32 = 9) ||
        decide (c.toNat + 32 = 13) || decide (c.toNat + 32 = 10)) = false := by
      simp only [Bool.or_eq_false_iff, decide_eq_false_iff_not]
      omega
    have l2 : (decide (c.toNat = 32) || decide (c.toNat = 9) ||
        decide (c.toNat = 13) || decide (c.toNat = 10)) = false := by
      simp only [Bool.or_eq_false_iff, decide_eq_false_iff_not]
      omega
    rw [l1, l2]
  · rw [toLowerChar_of_not_upper c h]

/-- `dropWhile` is the identity on a list none of whose elements satisfy the
predicate. -/
theorem dropWhile_eq_self_of_none {p : Char → Bool} :
    ∀ l : List Char, (∀ c ∈ l, p c = false) → l.dropWhile p = l := by
  intro l h
  cases l with
  | nil => rfl
  | cons a l =>
    have ha : p a = false := h a (List.mem_cons_self a l)
    simp [List.dropWhile_cons, ha]

/-- `trimS` is the identity after all whitespace has been removed. -/
theorem trimS_stripWhitespaceS (s : String) :
    trimS (stripWhitespaceS s) = stripWhitespaceS s := by
  unfold trimS stripWhitespaceS
  have hno : ∀ c ∈ s.data.filter (fun c => !c.isWhitespace), c.isWhitespace = false := by
    intro c hc
    have := List.of_mem_filter hc
    simpa using this
  rw [dropWhile_eq_self_of_none _ hno]
  rw [dropWhile_eq_self_of_none _ (by intro c hc; exact hno c (List.mem_reverse.mp hc))]
  simp

/-- Lowercasing commutes with whitespace removal. -/
theorem toLowerS_stripWhitespaceS (s : String) :
    toLowerS (stripWhitespaceS s) = stripWhitespaceS (toLowerS s) := by
  unfold toLowerS stripWhitespaceS
  rw [List.filter_map]
  congr 1
  refine congrArg (List.map toLowerChar) (List.filter_congr ?_)
  intro c _
  simp [Function.comp, isWhitespace_toLowerChar]

/-- Lowercasing an already-lowercased string changes nothing. -/
theorem toLowerS_idem (s : String) : toLowerS (toLowerS s) = toLowerS s := by
  unfold toLowerS
  simp only [List.map_map]
  congr 1
  apply List.map_congr_left
  intro c _
  exact toLowerChar_idem c

/-- Diacritic removal commutes with whitespace removal. -/
theorem stripDiacriticsS_stripWhitespaceS (s : String) :
    stripDiacriticsS (stripWhitespaceS s) = stripWhitespaceS (stripDiacriticsS s) := by
  unfold stripDiacriticsS stripWhitespaceS
  simp only [List.filter_filter]
  congr 1
  apply List.filter_congr
  intro c _
  simp [Bool.and_comm]

/-- `normalize` is lowercasing followed by whitespace removal: the trailing
`trim` never has anything left to do, and the empty-string guard agrees with
the unguarded computation. -/
theorem normalize_eq (s : String) :
    normalize s = stripWhitespaceS (toLowerS s) := by
  unfold normalize
  split_ifs with h
  · subst h; rfl
  · exact trimS_stripWhitespaceS _

/-- The spec's normalization of an admin name, in the spec's own order:
lowercase, strip diacritics, strip whitespace, trim. -/
def specNormalize (s : String) : String :=
  trimS (stripWhitespaceS (stripDiacriticsS (toLowerS s)))

/-- The spec's admin-match rule as literally stated: after normalizing both
sides, pass exactly when the normalized strings are equal or one is a prefix
of the other. -/
def specAdminPass (a b : String) : Bool :=
  specNormalize a == specNormalize b || jsStartsWith (specNormalize a) (specNormalize b) ||
    jsStartsWith (specNormalize b) (specNormalize a)

/-- The amended admin-match rule: as `specAdminPass`, but additionally
requiring both sides to be non-empty after lowercasing and whitespace
removal (the `!a || !b` guard of `isSimilar`). -/
def specAdminPassAmended (a b : String) : Bool :=
  !(stripWhitespaceS (toLowerS a) == "") && !(stripWhitespaceS (toLowerS b) == "") &&
    specAdminPass a b

/-- The comparison string computed inside `isSimilar` on a `normalize`d input
is exactly the spec's normalization. -/
theorem inner_eq_specNormalize (a : String) :
    trimS (stripDiacriticsS (toLowerS (stripWhitespaceS (toLowerS a)))) = specNormalize a := by
  rw [toLowerS_stripWhitespaceS, toLowerS_idem, stripDiacriticsS_stripWhitespaceS]
  rfl

/-! Data model. -/

/-- The address object of a Nominatim response (`countryData.address`);
absent fields are `none`. -/
structure Address where
  country_code : Option String := none
  country : Option String := none
  region : Option String := none
  state : Option String := none
  province : Option String := none
  department : Option String := none
  county : Option String := none
  iso3166_2_lvl3 : Option String := none
  iso3166_2_lvl4 : Option String := none
  deriving DecidableEq

/-- A parsed Nominatim response (`facility._countryData`). -/
structure NominatimResponse where
  address : Option Address := none
  deriving DecidableEq

/-- A parsed road-distance or building-distance response. -/
structure RoadResponse where
  valid : Option Bool := none
  distance : Option ℚ := none
  message : Option String := none
  deriving DecidableEq

/-- A parsed water-check response. -/
structure WaterResponse where
  on_water : Option Bool := none
  deriving DecidableEq

/-- A parsed worldpop response. -/
structure PopResponse where
  population : Option ℚ := none
  deriving DecidableEq

/-- `facility.countryBoundary` as stored by the country check. -/
structure CountryBoundary where
  valid : Bool
  message : String
  countryCode : String
  countryName : String
  deriving DecidableEq

/-- `facility.adminAreaMatch` as stored by the admin check. -/
structure AdminAreaMatch where
  valid : Bool
  message : String
  osmAdminName : String
  uploadedAdminName : String
  matchStatus : String
  addressFields : Option Address := none
  deriving DecidableEq

/-- `facility.roadDistance` as stored by the road check. -/
structure RoadDistance where
  valid : Bool
  distance : Option ℚ
  message : String
  deriving DecidableEq

/-- `facility.buildingDistance` as stored by the building check. -/
structure BuildingDistance where
  valid : Bool
  distance : Option ℚ
  message : String
  deriving DecidableEq

/-- `facility.waterCheck` as stored by the water check. -/
structure WaterCheck where
  on_water : Bool
  message : String
  deriving DecidableEq

/-- `facility.populationDensity` as stored by the population check. -/
structure PopulationDensity where
  valid : Bool
  population : ℚ
  message : String
  deriving DecidableEq

/-- `facility.duplicateCheck` as stored by the duplicate check. -/
structure DuplicateCheck where
  valid : Bool
  message : String
  duplicateCount : ℕ
  deriving DecidableEq

/-- The facility categories returned by `determineFacilityCategory`, plus the
`Error` verdict set by the orchestrator on a failed validation task. The
constructors stand for the source strings `"Valid"`, `"Invalid"`,
`"Data Consistency Review"`, `"Location Accuracy Flags"` and `"Error"`. -/
inductive Category where
  | valid
  | invalid
  | dataConsistencyReview
  | locationAccuracyFlags
  | error
  deriving DecidableEq

/-- One uploaded facility record, mutated in place by the validator. `x`/`y`
carry the parsed numeric coordinates; `Admin1` models `facility.Admin1 || ""`;
the check-result fields are absent (`none`) until the corresponding check has
run, and `countryData` models `facility._countryData`. -/
structure Facility where
  Name : String
  x : ℚ
  y : ℚ
  Admin1 : String := ""
  countryBoundary : Option CountryBoundary := none
  adminAreaMatch : Option AdminAreaMatch := none
  roadDistance : Option RoadDistance := none
  buildingDistance : Option BuildingDistance := none
  waterCheck : Option WaterCheck := none
  populationDensity : Option PopulationDensity := none
  duplicateCheck : Option DuplicateCheck := none
  countryData : Option NominatimResponse := none
  category : Option Category := none
  error : Bool := false
  deriving DecidableEq

instance : Inhabited Facility := ⟨{ Name := "", x := 0, y := 0 }⟩

/-- The check types run through `runApiCheck` and tracked by the failure
tracker (`duplicate` is computed locally and is never tracked). -/
inductive CheckType where
  | country
  | admin
  | road
  | building
  | water
  | population
  deriving DecidableEq

/-- `failureType` of a tracked failure: `'validation'` or `'api'`. -/
inductive FailureType where
  | validation
  | api
  deriving DecidableEq

/-- One entry of `failedChecks`, keyed by (facilityIndex, checkType). -/
structure FailedCheckEntry where
  facility : Facility
  retryCount : ℕ
  maxRetries : ℕ
  failureType : FailureType
  deriving DecidableEq

/-- The `failedChecks` store, flattened: the nested JS object
`failedChecks[facilityIndex][checkType]` is modelled as an association list
keyed by the pair. Insertion order is preserved, as in JS objects. -/
abbrev Tracker : Type := List ((ℕ × CheckType) × FailedCheckEntry)

/-- Lookup of `failedChecks[facilityIndex]?.[checkType]`. -/
def lookupFailedCheck (tr : Tracker) (facilityIndex : ℕ) (checkType : CheckType) :
    Option FailedCheckEntry :=
  ((tr : List _).find? (fun e => decide (e.1 = (facilityIndex, checkType)))).map Prod.snd

/-- `addFailedCheck` of `src/frontend/script.js` (lines 436-455): insert a
fresh entry with `retryCount 0`, `maxRetries 3`, unless the key is present. -/
def addFailedCheck (tr : Tracker) (facilityIndex : ℕ) (checkType : CheckType)
    (facility : Facility) (failureType : FailureType) : Tracker :=
  if (lookupFailedCheck tr facilityIndex checkType).isSome then tr
  else (tr : List _) ++ [((facilityIndex, checkType),
    { facility := facility, retryCount := 0, maxRetries := 3, failureType := failureType })]

/-- `removeFailedCheck` of `src/frontend/script.js` (lines 458-469): delete
the keyed entry (pruning of an emptied facility object is invisible in the
flattened model). -/
def removeFailedCheck (tr : Tracker) (facilityIndex : ℕ) (checkType : CheckType) : Tracker :=
  (tr : List _).filter (fun e => !decide (e.1 = (facilityIndex, checkType)))

/-- `countFailedChecks` of `src/frontend/script.js` (lines 488-494): the
total number of tracked (facility, checkType) failures. -/
def countFailedChecks (tr : Tracker) : ℕ :=
  (tr : List _).length

/-- A well-formed tracker has no duplicate keys (always true of the JS
nested-object representation). -/
def TrackerWF (tr : Tracker) : Prop :=
  ((tr : List _).map Prod.fst).Nodup

/-- Number of entries stored under one key. -/
def countKey (tr : Tracker) (k : ℕ × CheckType) : ℕ :=
  ((tr : List _).filter (fun e => decide (e.1 = k))).length

/-! Classification. -/

/-- `!f.countryBoundary?.valid`: true when the country result is absent or
invalid. -/
def countryCheckInvalid (f : Facility) : Bool :=
  !((f.countryBoundary.map CountryBoundary.valid).getD false)

/-- `f.waterCheck?.on_water`: true when a water result is present and
reports water. -/
def waterCheckOnWater (f : Facility) : Bool :=
  (f.waterCheck.map WaterCheck.on_water).getD false

/-- `!f.duplicateCheck?.valid`. -/
def duplicateCheckInvalid (f : Facility) : Bool :=
  !((f.duplicateCheck.map DuplicateCheck.valid).getD false)

/-- `!f.adminAreaMatch?.valid`. -/
def adminCheckInvalid (f : Facility) : Bool :=
  !((f.adminAreaMatch.map AdminAreaMatch.valid).getD false)

/-- `!f.roadDistance?.valid`. -/
def roadCheckInvalid (f : Facility) : Bool :=
  !((f.roadDistance.map RoadDistance.valid).getD false)

/-- `!f.buildingDistance?.valid`. -/
def buildingCheckInvalid (f : Facility) : Bool :=
  !((f.buildingDistance.map BuildingDistance.valid).getD false)

/-- `!f.populationDensity?.valid`. -/
def populationCheckInvalid (f : Facility) : Bool :=
  !((f.populationDensity.map PopulationDensity.valid).getD false)

/-- `determineFacilityCategory` of `src/frontend/script.js` (lines 411-433),
identical in `src/unnamed/part_000` (lines 536-558). -/
def determineFacilityCategory (f : Facility) : Category :=
  if countryCheckInvalid f || waterCheckOnWater f then
    Category.invalid
  else if duplicateCheckInvalid f || adminCheckInvalid f then
    Category.dataConsistencyReview
  else if roadCheckInvalid f || buildingCheckInvalid f || populationCheckInvalid f then
    Category.locationAccuracyFlags
  else
    Category.valid

/-! Check execution (`runApiCheck`). -/

/-- The possible shapes of one stored check result, for
`isValidationFailure (checkType, result)`. -/
inductive StoredResult where
  | country (r : CountryBoundary)
  | admin (r : AdminAreaMatch)
  | road (r : RoadDistance)
  | building (r : BuildingDistance)
  | water (r : WaterCheck)
  | population (r : PopulationDensity)

/-- `isValidationFailure` of `src/frontend/script.js` (lines 518-535): the
per-check pass/fail predicate on a stored result. -/
def isValidationFailure : StoredResult → Bool
  | .country r => !r.valid
  | .admin r => !r.valid
  | .road r => !r.valid
  | .building r => !r.valid
  | .water r => r.on_water
  | .population r => !r.valid

/-- JS `s?.split("-")[1]` with `undefined` collapsed to `""`. -/
def isoSplitSecond (s : Option String) : String :=
  match s with
  | none => ""
  | some str => (str.splitOn "-").getD 1 ""

/-- The OSM Admin1 extraction of `src/frontend/script.js` (lines 613-621): the
first truthy candidate among the regional address fields. -/
def osmAdmin1Of (address : Address) : String :=
  jsOrS (address.region.getD "")
    (jsOrS (address.state.getD "")
      (jsOrS (address.province.getD "")
        (jsOrS (address.department.getD "")
          (jsOrS (address.county.getD "")
            (jsOrS (isoSplitSecond address.iso3166_2_lvl3)
              (jsOrS (isoSplitSecond address.iso3166_2_lvl4) ""))))))

/-- The population result stored by `src/frontend/script.js` (lines 781-786):
`population = popData.population || 0`, valid iff `population > 100`. -/
def populationDensityOf (popData : PopResponse) : PopulationDensity :=
  let population := popData.population.getD 0
  { valid := decide (population > 100)
    population := population
    message := "Population ~1km: " ++ toString population }

/-- The population result stored by the corresponding branch of
`src/unnamed/part_000` (lines 765-771): same `population` extraction but
valid iff `population > 0`. -/
def populationDensityOfPart000 (popData : PopResponse) : PopulationDensity :=
  let population := popData.population.getD 0
  { valid := decide (population > 0)
    population := population
    message := "Population ~1km: " ++ toString population }

/-- The remote responses available to one `runApiCheck` invocation: for each
endpoint either a parsed JSON response, or `none` when `makeApiCall` throws
(non-2xx status or network failure). -/
structure ApiEnv where
  nominatim : Option NominatimResponse := none
  road : Option RoadResponse := none
  building : Option RoadResponse := none
  water : Option WaterResponse := none
  worldpop : Option PopResponse := none

/-- The state touched by one `runApiCheck` call: the facility (mutated in
place in JS) and the `failedChecks` tracker. -/
structure RunState where
  facility : Facility
  tracker : Tracker

/-- The result of one `runApiCheck` call, together with the number of
`makeApiCall` network requests it performed. -/
structure RunOutcome where
  state : RunState
  apiCalls : ℕ

/-- `runApiCheck` of `src/frontend/script.js` (lines 538-850): run one check,
store its result on the facility, register failures (validation failures, and
api failures via the `makeApiCall` catch), and on a retry that both avoided
an api error and now passes, synchronously remove the tracked entry. The
UI-status side effects of the source are omitted. -/
def runApiCheck (env : ApiEnv) (expectedCountry : Option String) (st : RunState)
    (facilityIndex : ℕ) (checkType : CheckType) (isRetry : Bool) : RunOutcome :=
  let stepResult : RunState × Bool × ℕ :=
    match checkType with
    | .country =>
      match env.nominatim with
      | some countryData =>
        let cb : CountryBoundary :=
          { valid := decide ((countryData.address.bind Address.country_code) = expectedCountry)
            message := jsOrS ((countryData.address.bind Address.country).getD "") "Unknown"
            countryCode := (countryData.address.bind Address.country_code).getD ""
            countryName := (countryData.address.bind Address.country).getD "" }
        let f := { st.facility with countryBoundary := some cb, countryData := some countryData }
        let tr := if isValidationFailure (.country cb) then
            addFailedCheck st.tracker facilityIndex .country f .validation
          else st.tracker
        (⟨f, tr⟩, false, 1)
      | none =>
        let tr := addFailedCheck st.tracker facilityIndex .country st.facility .api
        let cbErr : CountryBoundary :=
          { valid := false, message := "API Error", countryCode := "", countryName := "" }
        let f := { st.facility with countryBoundary := some cbErr }
        (⟨f, tr⟩, true, 1)
    | .admin =>
      match st.facility.countryData with
      | none =>
        let amErr : AdminAreaMatch :=
          { valid := false, message := "Country data missing", osmAdminName := ""
            uploadedAdminName := st.facility.Admin1, matchStatus := "error" }
        let f := { st.facility with adminAreaMatch := some amErr }
        let tr := addFailedCheck st.tracker facilityIndex .admin f .api
        (⟨f, tr⟩, false, 0)
      | some cd =>
        let address := cd.address.getD {}
        let osmAdmin1 := osmAdmin1Of address
        let adminOk := admin1Match st.facility.Admin1 osmAdmin1
        let am : AdminAreaMatch :=
          { valid := adminOk
            message := if adminOk then "Admin1 matches" else "Admin1 mismatch"
            osmAdminName := osmAdmin1
            uploadedAdminName := st.facility.Admin1
            matchStatus := if adminOk then "match" else "mismatch"
            addressFields := some address }
        let f := { st.facility with adminAreaMatch := some am }
        let tr := if isValidationFailure (.admin am) then
            addFailedCheck st.tracker facilityIndex .admin f .validation
          else st.tracker
        (⟨f, tr⟩, false, 0)
    | .road =>
      match env.road with
      | some roadData =>
        let rd : RoadDistance :=
          { valid := roadData.valid.getD false
            distance := roadData.distance
            message := jsOrS ((roadData.message).getD "") "No road nearby" }
        let f := { st.facility with roadDistance := some rd }
        let tr := if isValidationFailure (.road rd) then
            addFailedCheck st.tracker facilityIndex .road f .validation
          else st.tracker
        (⟨f, tr⟩, false, 1)
      | none =>
        let tr := addFailedCheck st.tracker facilityIndex .road st.facility .api
        let rdErr : RoadDistance := { valid := false, distance := none, message := "API Error" }
        let f := { st.facility with roadDistance := some rdErr }
        (⟨f, tr⟩, true, 1)
    | .building =>
      match env.building with
      | some buildData =>
        let bd : BuildingDistance :=
          { valid := buildData.valid.getD false
            distance := buildData.distance
            message := jsOrS ((buildData.message).getD "") "No building nearby" }
        let f := { st.facility with buildingDistance := some bd }
        let tr := if isValidationFailure (.building bd) then
            addFailedCheck st.tracker facilityIndex .building f .validation
          else st.tracker
        (⟨f, tr⟩, false, 1)
      | none =>
        let tr := addFailedCheck st.tracker facilityIndex .building st.facility .api
        let bdErr : BuildingDistance := { valid := false, distance := none, message := "API Error" }
        let f := { st.facility with buildingDistance := some bdErr }
        (⟨f, tr⟩, true, 1)
    | .water =>
      match env.water with
      | some waterData =>
        let onWater := waterData.on_water.getD false
        let w : WaterCheck :=
          { on_water := onWater
            message := if onWater then "On water body" else "Not on water" }
        let f := { st.facility with waterCheck := some w }
        let tr := if isValidationFailure (.water w) then
            addFailedCheck st.tracker facilityIndex .water f .validation
          else st.tracker
        (⟨f, tr⟩, false, 1)
      | none =>
        let tr := addFailedCheck st.tracker facilityIndex .water st.facility .api
        let wErr : WaterCheck := { on_water := false, message := "API Error" }
        let f := { st.facility with waterCheck := some wErr }
        (⟨f, tr⟩, true, 1)
    | .population =>
      match env.worldpop with
      | some popData =>
        let pd := populationDensityOf popData
        let f := { st.facility with populationDensity := some pd }
        let tr := if isValidationFailure (.population pd) then
            addFailedCheck st.tracker facilityIndex .population f .validation
          else st.tracker
        (⟨f, tr⟩, false, 1)
      | none =>
        let tr := addFailedCheck st.tracker facilityIndex .population st.facility .api
        let pdErr : PopulationDensity := { valid := false, population := 0, message := "API Error" }
        let f := { st.facility with populationDensity := some pdErr }
        (⟨f, tr⟩, true, 1)
  let st1 := stepResult.1
  let apiErrorOccurred := stepResult.2.1
  if isRetry && !apiErrorOccurred then
    let isNowSuccessful : Bool :=
      match checkType with
      | .country => (st1.facility.countryBoundary.map CountryBoundary.valid).getD false
      | .admin => (st1.facility.adminAreaMatch.map AdminAreaMatch.valid).getD false
      | .road => (st1.facility.roadDistance.map RoadDistance.valid).getD false
      | .building => (st1.facility.buildingDistance.map BuildingDistance.valid).getD false
      | .water => !((st1.facility.waterCheck.map WaterCheck.on_water).getD false)
      | .population => (st1.facility.populationDensity.map PopulationDensity.valid).getD false
    if isNowSuccessful && (lookupFailedCheck st1.tracker facilityIndex checkType).isSome then
      ⟨⟨st1.facility, removeFailedCheck st1.tracker facilityIndex checkType⟩, stepResult.2.2⟩
    else
      ⟨st1, stepResult.2.2⟩
  else
    ⟨st1, stepResult.2.2⟩

/-- A stored check result that is present and passes that check's own
pass/fail predicate (`isValidationFailure`). -/
def storedPasses (f : Facility) : CheckType → Bool
  | .country => (f.countryBoundary.map (fun r => !isValidationFailure (.country r))).getD false
  | .admin => (f.adminAreaMatch.map (fun r => !isValidationFailure (.admin r))).getD false
  | .road => (f.roadDistance.map (fun r => !isValidationFailure (.road r))).getD false
  | .building => (f.buildingDistance.map (fun r => !isValidationFailure (.building r))).getD false
  | .water => (f.waterCheck.map (fun r => !isValidationFailure (.water r))).getD false
  | .population => (f.populationDensity.map (fun r => !isValidationFailure (.population r))).getD false

/-! Duplicate check (`validateSingleFacility`, `src/frontend/script.js`
lines 1011-1028). -/

/-- The per-pair closeness test: within `0.001` degrees in both x and y. -/
def dupWithin (a : Facility) (x y : ℚ) : Bool :=
  decide (|a.x - x| < 1 / 1000) && decide (|a.y - y| < 1 / 1000)

/-- `uploadedData.filter((o, i) => i !== index && |o.x - x| < t && |o.y - y| < t)`,
keeping each duplicate together with its index. -/
def duplicatesFor (data : List Facility) (index : ℕ) (x y : ℚ) : List (ℕ × Facility) :=
  data.enum.filter (fun oi => !decide (oi.1 = index) && dupWithin oi.2 x y)

/-- The stored `duplicateCheck` result for the facility at `index`. -/
def duplicateCheckOf (data : List Facility) (index : ℕ) (f : Facility) : DuplicateCheck :=
  let duplicates := duplicatesFor data index f.x f.y
  { valid := decide (duplicates.length = 0)
    message := if duplicates.length = 0 then "No duplicates" else
      toString duplicates.length ++ " duplicates"
    duplicateCount := duplicates.length }

/-! Batch orchestration (`validateCoordinates`, `src/frontend/script.js`
lines 1100-1132). -/

/-- The settlement of one facility's validation task: a fulfilled task
contributes its value, a rejected task contributes the original facility
marked `error = true` and `category = Error`. -/
def settleOne (p : Facility × Except Unit Facility) : Facility :=
  match p.2 with
  | .ok v => v
  | .error _ => { p.1 with error := true, category := some Category.error }

/-- `Promise.allSettled` over one batch followed by the per-result `forEach`
push: every task of the batch contributes exactly one settled facility, in
batch order. -/
def processBatch (batch : List (Facility × Except Unit Facility)) : List Facility :=
  batch.map settleOne

/-- The batch loop of `validateCoordinates`: slices of `batchSize` facilities
are settled one batch after another and appended to `results`. The
recursion is fuelled by the list length; with a positive batch size the fuel
is never exhausted. -/
def batchLoop (batchSize : ℕ) : ℕ → List (Facility × Except Unit Facility) → List Facility
  | 0, _ => []
  | _, [] => []
  | fuel + 1, rows =>
    processBatch (rows.take batchSize) ++ batchLoop batchSize fuel (rows.drop batchSize)

/-- The full results list produced by the batch loop of
`validateCoordinates`, given each facility's task outcome in input order. -/
def validateCoordinatesBatches (batchSize : ℕ)
    (rows : List (Facility × Except Unit Facility)) : List Facility :=
  batchLoop batchSize rows.length rows

/-! Retry coordination (`retryFailedChecks`, `src/frontend/script.js`
lines 853-984). -/

/-- The module-level state read and written by `retryFailedChecks`:
the single-flight flag, the tracker and the uploaded facilities. -/
structure GlobalState where
  isRetrying : Bool
  tracker : Tracker
  facilities : List Facility

/-- One retried check: run `runApiCheck` with `isRetry = true` on the
facility the tracker key refers to (`check.facility` is the same object as
`uploadedData[check.facilityIndex]` in the source). -/
def retryStep (env : ℕ → CheckType → ApiEnv) (expectedCountry : Option String)
    (st : GlobalState) (key : ℕ × CheckType) : GlobalState :=
  let f := st.facilities.getD key.1 default
  let out := runApiCheck (env key.1 key.2) expectedCountry ⟨f, st.tracker⟩ key.1 key.2 true
  { st with facilities := st.facilities.set key.1 out.state.facility
            tracker := out.state.tracker }

/-- The retry loop over the snapshot work list. The source awaits batches of
five concurrently on one event loop with a 500 ms pause in between; the
linearization is modelled as a fold, and `ext` injects the tracker updates
performed by other in-flight first-pass validations between steps. -/
def processRetries (env : ℕ → CheckType → ApiEnv) (expectedCountry : Option String)
    (ext : ℕ → Tracker → Tracker) :
    GlobalState → List (ℕ × CheckType) → ℕ → GlobalState
  | st, [], _ => st
  | st, key :: rest, k =>
    let st1 := retryStep env expectedCountry st key
    let st2 := { st1 with tracker := ext k st1.tracker }
    processRetries env expectedCountry ext st2 rest (k + 1)

/-- The category recomputation after the retry loop: for every snapshot item
whose facility exists, recompute `facility.category` from the current check
results. -/
def recomputeCategories (st : GlobalState) (checks : List (ℕ × CheckType)) : GlobalState :=
  checks.foldl
    (fun s key =>
      match s.facilities.get? key.1 with
      | some f =>
        { s with facilities :=
            s.facilities.set key.1 { f with category := some (determineFacilityCategory f) } }
      | none => s)
    st

/-- `retryFailedChecks` of `src/frontend/script.js` (lines 853-984): a no-op
under the single-flight guard or with nothing tracked; otherwise snapshot the
tracker into a flat work list, retry exactly that list, recompute the
categories of the touched facilities and clear the flag. Returns the new
state together with the snapshot that was retried. -/
def retryFailedChecks (env : ℕ → CheckType → ApiEnv) (expectedCountry : Option String)
    (ext : ℕ → Tracker → Tracker) (st : GlobalState) :
    GlobalState × List ((ℕ × CheckType) × FailedCheckEntry) :=
  if st.isRetrying || decide (countFailedChecks st.tracker = 0) then
    (st, [])
  else
    let st0 := { st with isRetrying := true }
    let checksToRetry := st0.tracker
    let st1 := processRetries env expectedCountry ext st0 (checksToRetry.map Prod.fst) 0
    let st2 := recomputeCategories st1 (checksToRetry.map Prod.fst)
    ({ st2 with isRetrying := false }, checksToRetry)

/-! Tracker lemmas. -/

theorem lookupFailedCheck_append_single (tr : Tracker) (k : ℕ × CheckType)
    (en : FailedCheckEntry) (i : ℕ) (ct : CheckType) :
    lookupFailedCheck (tr ++ [(k, en)]) i ct =
      (lookupFailedCheck tr i ct).or (if k = (i, ct) then some en else none) := by
  unfold lookupFailedCheck
  rw [List.find?_append]
  rcases hf : (tr : List _).find? (fun e => decide (e.1 = (i, ct))) with _ | e
  · by_cases hk : k = (i, ct)
    · subst hk
      simp [hf, List.find?_cons]
    · simp [hf, List.find?_cons, hk]
  · simp [hf]

theorem lookupFailedCheck_addFailedCheck_self (tr : Tracker) (i : ℕ) (ct : CheckType)
    (f : Facility) (ft : FailureType) :
    (lookupFailedCheck (addFailedCheck tr i ct f ft) i ct).isSome = true := by
  unfold addFailedCheck
  split_ifs with h
  · exact h
  · rw [lookupFailedCheck_append_single]
    rcases hf : lookupFailedCheck tr i ct with _ | e <;> simp

theorem addFailedCheck_of_isSome (tr : Tracker) (i : ℕ) (ct : CheckType)
    (f : Facility) (ft : FailureType)
    (h : (lookupFailedCheck tr i ct).isSome = true) :
    addFailedCheck tr i ct f ft = tr := by
  unfold addFailedCheck
  rw [if_pos h]

theorem lookupFailedCheck_removeFailedCheck_self (tr : Tracker) (i : ℕ) (ct : CheckType) :
    lookupFailedCheck (removeFailedCheck tr i ct) i ct = none := by
  unfold lookupFailedCheck removeFailedCheck
  rw [Option.map_eq_none', List.find?_eq_none]
  intro e he
  have := List.of_mem_filter he
  simp at this
  simp [this]

theorem countKey_eq_zero_of_lookup_none (tr : Tracker) (i : ℕ) (ct : CheckType)
    (h : lookupFailedCheck tr i ct = none) : countKey tr (i, ct) = 0 := by
  unfold lookupFailedCheck at h
  rw [Option.map_eq_none', List.find?_eq_none] at h
  unfold countKey
  rw [List.length_eq_zero, List.filter_eq_nil_iff]
  intro e he
  have := h e he
  simpa using this

theorem countKey_of_wf (tr : Tracker) (hwf : TrackerWF tr) (i : ℕ) (ct : CheckType) :
    countKey tr (i, ct) = if (lookupFailedCheck tr i ct).isSome then 1 else 0 := by
  induction tr with
  | nil => simp [countKey, lookupFailedCheck]
  | cons e tl ih =>
    have hwf2 : TrackerWF tl := (List.nodup_cons.mp hwf).2
    have hnm : e.1 ∉ tl.map Prod.fst := (List.nodup_cons.mp hwf).1
    by_cases he : e.1 = (i, ct)
    · have hz : countKey tl (i, ct) = 0 := by
        unfold countKey
        rw [List.length_eq_zero, List.filter_eq_nil_iff]
        intro e2 he2
        have hmem : e2.1 ∈ tl.map Prod.fst := List.mem_map_of_mem Prod.fst he2
        simp only [decide_eq_true_eq]
        intro hcon
        rw [← he] at hcon
        exact hnm (hcon ▸ hmem)
      unfold countKey at hz
      unfold countKey lookupFailedCheck
      simp [List.filter_cons, List.find?_cons, he, hz]
    · have hd : (decide (e.1 = (i, ct))) = false := by simpa using he
      unfold countKey lookupFailedCheck at ih ⊢
      rw [List.filter_cons, List.find?_cons, hd]
      simpa using ih hwf2

/-! Concrete sample data used by witnesses. -/

/-- A concrete facility, check results all absent. -/
def facilityA : Facility :=
  { Name := "Facility A", x := 34, y := -13 }

/-- A second concrete facility 0.0005 degrees away from `facilityA`. -/
def facilityB : Facility :=
  { Name := "Facility B", x := 34 + 1 / 2000, y := -13 }

/-- A third concrete facility far away from both. -/
def facilityC : Facility :=
  { Name := "Facility C", x := 35, y := -12 }

/-- A concrete stored country result that is invalid. -/
def countryResultFail : CountryBoundary :=
  { valid := false, message := "Mozambique", countryCode := "mz", countryName := "Mozambique" }

/-- A concrete facility whose stored country result is invalid. -/
def facilityCountryFail : Facility :=
  { facilityA with countryBoundary := some countryResultFail }

/-! Claim theorems. -/

/-- Claim C1: for every facility record, `determineFacilityCategory` is a
deterministic function of the stored check-result fields and applies the
rules in strict top-to-bottom precedence: Invalid iff the country check is
invalid or the water check reports water; otherwise Data Consistency Review
iff the duplicate or admin check is invalid; otherwise Location Accuracy
Flags iff the road, building, or population check is invalid; otherwise
Valid. Only the first matching rule applies. -/
theorem determineFacilityCategory_strict_precedence (f : Facility) :
    (determineFacilityCategory f = Category.invalid ↔
      (countryCheckInvalid f = true ∨ waterCheckOnWater f = true)) ∧
    (determineFacilityCategory f = Category.dataConsistencyReview ↔
      (countryCheckInvalid f = false ∧ waterCheckOnWater f = false ∧
        (duplicateCheckInvalid f = true ∨ adminCheckInvalid f = true))) ∧
    (determineFacilityCategory f = Category.locationAccuracyFlags ↔
      (countryCheckInvalid f = false ∧ waterCheckOnWater f = false ∧
        duplicateCheckInvalid f = false ∧ adminCheckInvalid f = false ∧
        (roadCheckInvalid f = true ∨ buildingCheckInvalid f = true ∨
          populationCheckInvalid f = true))) ∧
    (determineFacilityCategory f = Category.valid ↔
      (countryCheckInvalid f = false ∧ waterCheckOnWater f = false ∧
        duplicateCheckInvalid f = false ∧ adminCheckInvalid f = false ∧
        roadCheckInvalid f = false ∧ buildingCheckInvalid f = false ∧
        populationCheckInvalid f = false)) ∧
    (∀ g : Facility, f.countryBoundary = g.countryBoundary → f.waterCheck = g.waterCheck →
      f.duplicateCheck = g.duplicateCheck → f.adminAreaMatch = g.adminAreaMatch →
      f.roadDistance = g.roadDistance → f.buildingDistance = g.buildingDistance →
      f.populationDensity = g.populationDensity →
      determineFacilityCategory f = determineFacilityCategory g) := by
  have hdet : ∀ g : Facility,
      f.countryBoundary = g.countryBoundary → f.waterCheck = g.waterCheck →
      f.duplicateCheck = g.duplicateCheck → f.adminAreaMatch = g.adminAreaMatch →
      f.roadDistance = g.roadDistance → f.buildingDistance = g.buildingDistance →
      f.populationDensity = g.populationDensity →
      determineFacilityCategory f = determineFacilityCategory g := by
    intro g h1 h2 h3 h4 h5 h6 h7
    unfold determineFacilityCategory countryCheckInvalid waterCheckOnWater duplicateCheckInvalid
      adminCheckInvalid roadCheckInvalid buildingCheckInvalid populationCheckInvalid
    rw [h1, h2, h3, h4, h5, h6, h7]
  have hchar :
      (determineFacilityCategory f = Category.invalid ↔
        (countryCheckInvalid f = true ∨ waterCheckOnWater f = true)) ∧
      (determineFacilityCategory f = Category.dataConsistencyReview ↔
        (countryCheckInvalid f = false ∧ waterCheckOnWater f = false ∧
          (duplicateCheckInvalid f = true ∨ adminCheckInvalid f = true))) ∧
      (determineFacilityCategory f = Category.locationAccuracyFlags ↔
        (countryCheckInvalid f = false ∧ waterCheckOnWater f = false ∧
          duplicateCheckInvalid f = false ∧ adminCheckInvalid f = false ∧
          (roadCheckInvalid f = true ∨ buildingCheckInvalid f = true ∨
            populationCheckInvalid f = true))) ∧
      (determineFacilityCategory f = Category.valid ↔
        (countryCheckInvalid f = false ∧ waterCheckOnWater f = false ∧
          duplicateCheckInvalid f = false ∧ adminCheckInvalid f = false ∧
          roadCheckInvalid f = false ∧ buildingCheckInvalid f = false ∧
          populationCheckInvalid f = false)) := by
    cases hc : countryCheckInvalid f <;> cases hw : waterCheckOnWater f <;>
      cases hd : duplicateCheckInvalid f <;> cases ha : adminCheckInvalid f <;>
      cases hr : roadCheckInvalid f <;> cases hb : buildingCheckInvalid f <;>
      cases hp : populationCheckInvalid f <;>
      simp [determineFacilityCategory, hc, hw, hd, ha, hr, hb, hp]
  exact ⟨hchar.1, hchar.2.1, hchar.2.2.1, hchar.2.2.2, hdet⟩

/-- Witness for C1: a facility with a failed stored country check is
classified Invalid, and the classification ignores fields other than the
stored check results. -/
theorem determineFacilityCategory_strict_precedence_witness :
    determineFacilityCategory facilityCountryFail = Category.invalid ∧
    determineFacilityCategory facilityCountryFail =
      determineFacilityCategory { facilityCountryFail with Name := "Renamed" } := by
  have h := determineFacilityCategory_strict_precedence facilityCountryFail
  refine ⟨h.1.mpr (Or.inl (by decide)), ?_⟩
  exact h.2.2.2.2 { facilityCountryFail with Name := "Renamed" } rfl rfl rfl rfl rfl rfl rfl

/-- Claim C7: `addFailedCheck` is idempotent. A second call with the same
(facilityIndex, checkType) key is a no-op — in particular it does not modify
the existing entry's facility, retryCount, maxRetries or failureType — and,
on a well-formed tracker, exactly one entry is stored under the key. -/
theorem addFailedCheck_idempotent (tr : Tracker) (i : ℕ) (ct : CheckType)
    (f f2 : Facility) (ft ft2 : FailureType) :
    addFailedCheck (addFailedCheck tr i ct f ft) i ct f2 ft2 = addFailedCheck tr i ct f ft ∧
    (TrackerWF tr →
      countKey (addFailedCheck (addFailedCheck tr i ct f ft) i ct f2 ft2) (i, ct) = 1) := by
  have h1 : addFailedCheck (addFailedCheck tr i ct f ft) i ct f2 ft2 = addFailedCheck tr i ct f ft :=
    addFailedCheck_of_isSome _ _ _ _ _ (lookupFailedCheck_addFailedCheck_self tr i ct f ft)
  refine ⟨h1, fun hwf => ?_⟩
  rw [h1]
  unfold addFailedCheck
  split_ifs with h
  · rw [countKey_of_wf tr hwf i ct, if_pos h]
  · have hz : countKey tr (i, ct) = 0 :=
      countKey_eq_zero_of_lookup_none tr i ct (Option.not_isSome_iff_eq_none.mp h)
    unfold countKey at hz ⊢
    rw [List.filter_append, List.length_append, hz]
    simp

/-- Witness for C7 at a concrete tracker state. -/
theorem addFailedCheck_idempotent_witness :
    addFailedCheck (addFailedCheck [] 0 CheckType.country facilityA FailureType.validation) 0
        CheckType.country facilityB FailureType.api =
      addFailedCheck [] 0 CheckType.country facilityA FailureType.validation ∧
    countKey
      (addFailedCheck (addFailedCheck [] 0 CheckType.country facilityA FailureType.validation) 0
        CheckType.country facilityB FailureType.api) (0, CheckType.country) = 1 := by
  have h := addFailedCheck_idempotent [] 0 CheckType.country facilityA facilityB
    FailureType.validation FailureType.api
  exact ⟨h.1, h.2 (by simp [TrackerWF])⟩

/-- Counterexample to claim C10: the two source variants do not implement
the same population pass/fail predicate. On a well-formed response reporting
a population of 50, `src/frontend/script.js` stores `valid = false`
(threshold `> 100`) while `src/unnamed/part_000` stores `valid = true`
(threshold `> 0`). -/
theorem population_variants_differ_at_50 :
    (populationDensityOf { population := some 50 }).valid = false ∧
    (populationDensityOfPart000 { population := some 50 }).valid = true := by
  exact ⟨by decide, by decide⟩

/-- Amended claim C10: the two variants agree on a response exactly when the
extracted population value (`popData.population || 0`) is not in the interval
(0, 100]; `src/frontend/script.js` requires `> 100` where
`src/unnamed/part_000` requires `> 0`. -/
theorem population_variants_agree_iff (r : PopResponse) :
    ((populationDensityOf r).valid = (populationDensityOfPart000 r).valid) ↔
      (r.population.getD 0 ≤ 0 ∨ 100 < r.population.getD 0) := by
  unfold populationDensityOf populationDensityOfPart000
  simp only [decide_eq_decide]
  generalize r.population.getD 0 = p
  constructor
  · intro h
    by_cases h1 : (100 : ℚ) < p
    · exact Or.inr h1
    · left
      by_contra h2
      push_neg at h2
      exact h1 (h.mpr h2)
  · intro h
    constructor
    · intro hp
      linarith
    · intro hp
      rcases h with h2 | h2
      · linarith
      · exact h2

/-- Claim C9: for every well-formed population-service response, the stored
population result has `valid = true` exactly when the returned population
value (a missing field counting as 0) is greater than 100. -/
theorem population_check_valid_iff (env : ApiEnv) (expectedCountry : Option String)
    (st : RunState) (i : ℕ) (isRetry : Bool) (r : PopResponse)
    (h : env.worldpop = some r) :
    ((runApiCheck env expectedCountry st i CheckType.population isRetry).state.facility.populationDensity.map
        PopulationDensity.valid) = some (decide (r.population.getD 0 > 100)) := by
  cases isRetry
  · simp [runApiCheck, h, populationDensityOf]
  · simp only [runApiCheck, h]
    repeat' split
    all_goals simp [populationDensityOf]

/-- Witness for C9: a response reporting 150 people yields a passing stored
result. -/
theorem population_check_valid_iff_witness :
    ((runApiCheck { worldpop := some { population := some 150 } } none ⟨facilityA, []⟩ 0
        CheckType.population false).state.facility.populationDensity.map
        PopulationDensity.valid) = some true := by
  have h := population_check_valid_iff { worldpop := some { population := some 150 } } none
    ⟨facilityA, []⟩ 0 false { population := some 150 } rfl
  rw [h]
  decide

/-- Counterexample to claim C3: the admin check is not determined by the
equal-or-prefix rule on the normalized strings alone. For the uploaded
Admin1 `""` and the OSM name `"x"`, the empty normalized string is a prefix
of `"x"`, so the claimed rule passes, but the admin check fails (the
`!a || !b` guard of `isSimilar` rejects empty operands). -/
theorem admin1Match_empty_guard_cex :
    admin1Match "" "x" = false ∧ specAdminPass "" "x" = true := by
  constructor
  · rfl
  · decide

/-- Amended claim C3: the admin check passes exactly when both sides are
non-empty after lowercasing and whitespace removal and, after the full
normalization (lowercase, strip diacritics, strip whitespace, trim), the two
normalized strings are equal or one is a prefix of the other. -/
theorem admin1Match_eq_specAdminPassAmended (a b : String) :
    admin1Match a b = specAdminPassAmended a b := by
  unfold admin1Match isSimilar specAdminPassAmended
  rw [normalize_eq a, normalize_eq b]
  by_cases hga : stripWhitespaceS (toLowerS a) = "" <;>
    by_cases hgb : stripWhitespaceS (toLowerS b) = "" <;>
      simp [hga, hgb, inner_eq_specNormalize, specAdminPass]

/-- The batch loop settles every row, independently of the batching, as long
as the batch size is positive. -/
theorem batchLoop_eq_map (batchSize : ℕ) (hbs : 0 < batchSize) :
    ∀ (fuel : ℕ) (rows : List (Facility × Except Unit Facility)), rows.length ≤ fuel →
      batchLoop batchSize fuel rows = rows.map settleOne := by
  intro fuel
  induction fuel with
  | zero =>
    intro rows hr
    have hnil : rows = [] := List.length_eq_zero.mp (Nat.le_zero.mp hr)
    subst hnil
    rfl
  | succ n ih =>
    intro rows hr
    cases rows with
    | nil => rfl
    | cons r rest =>
      have hstep : batchLoop batchSize (n + 1) (r :: rest) =
          processBatch ((r :: rest).take batchSize) ++
            batchLoop batchSize n ((r :: rest).drop batchSize) := rfl
      rw [hstep]
      rw [ih ((r :: rest).drop batchSize) (by
        rw [List.length_drop]
        simp only [List.length_cons] at hr ⊢
        omega)]
      unfold processBatch
      rw [← List.map_append, List.take_append_drop]

/-- Claim C4: for every input list of facilities and positive batch size, the
batch loop of `validateCoordinates` yields exactly the per-row settlement in
input order: a rejected task does not abort its batch, every facility appears
exactly once, and a rejected facility is substituted by the same record with
`category = Error` and `error = true`. -/
theorem validateCoordinates_batch_isolation (batchSize : ℕ)
    (rows : List (Facility × Except Unit Facility)) (hbs : 0 < batchSize) :
    validateCoordinatesBatches batchSize rows = rows.map settleOne ∧
    (validateCoordinatesBatches batchSize rows).length = rows.length ∧
    (∀ p ∈ rows, p.2 = Except.error () →
      settleOne p = { p.1 with error := true, category := some Category.error }) := by
  have h1 : validateCoordinatesBatches batchSize rows = rows.map settleOne :=
    batchLoop_eq_map batchSize hbs rows.length rows le_rfl
  refine ⟨h1, by rw [h1, List.length_map], ?_⟩
  intro p _ hp
  unfold settleOne
  rw [hp]

/-- Witness for C4: with batch size 2, the middle facility's rejected task is
replaced by an Error record while its siblings complete, in input order. -/
theorem validateCoordinates_batch_isolation_witness :
    validateCoordinatesBatches 2
        [(facilityA, Except.ok facilityA), (facilityB, Except.error ()),
          (facilityC, Except.ok facilityC)] =
      [facilityA, { facilityB with error := true, category := some Category.error },
        facilityC] := by
  have h := (validateCoordinates_batch_isolation 2
    [(facilityA, Except.ok facilityA), (facilityB, Except.error ()),
      (facilityC, Except.ok facilityC)] (by decide)).1
  rw [h]
  rfl

/-- The invalid `adminAreaMatch` placeholder stored when the country payload
is missing (`src/frontend/script.js` lines 600-606). -/
def adminAreaMatchMissing (admin1 : String) : AdminAreaMatch :=
  { valid := false, message := "Country data missing", osmAdminName := ""
    uploadedAdminName := admin1, matchStatus := "error" }

/-- Claim C5: when the admin check runs with no stored country payload
(`_countryData` absent), it fails immediately with failure kind api: it
stores an invalid `adminAreaMatch` result, performs no network call, and
registers (facilityIndex, admin) in the failure tracker — with kind api when
the pair was not already tracked. -/
theorem admin_check_missing_country_data (env : ApiEnv) (expectedCountry : Option String)
    (st : RunState) (i : ℕ) (isRetry : Bool) (out : RunOutcome)
    (h : st.facility.countryData = none)
    (hout : out = runApiCheck env expectedCountry st i CheckType.admin isRetry) :
    out.state.facility.adminAreaMatch = some (adminAreaMatchMissing st.facility.Admin1) ∧
    (adminAreaMatchMissing st.facility.Admin1).valid = false ∧
    (lookupFailedCheck out.state.tracker i CheckType.admin).isSome = true ∧
    (lookupFailedCheck st.tracker i CheckType.admin = none →
      (lookupFailedCheck out.state.tracker i CheckType.admin).map FailedCheckEntry.failureType =
        some FailureType.api) ∧
    out.apiCalls = 0 := by
  have hred : runApiCheck env expectedCountry st i CheckType.admin isRetry =
      ⟨⟨{ st.facility with adminAreaMatch := some (adminAreaMatchMissing st.facility.Admin1) },
         addFailedCheck st.tracker i CheckType.admin
           { st.facility with adminAreaMatch := some (adminAreaMatchMissing st.facility.Admin1) }
           FailureType.api⟩, 0⟩ := by
    cases isRetry <;> simp [runApiCheck, h, adminAreaMatchMissing]
  subst hout
  rw [hred]
  refine ⟨rfl, rfl, lookupFailedCheck_addFailedCheck_self _ _ _ _ _, ?_, rfl⟩
  intro hpre
  unfold addFailedCheck
  rw [if_neg (by rw [hpre]; simp)]
  rw [lookupFailedCheck_append_single, hpre]
  simp

/-- Witness for C5 at a concrete facility with no country payload. -/
theorem admin_check_missing_country_data_witness :
    (runApiCheck {} none ⟨facilityA, []⟩ 0 CheckType.admin false).state.facility.adminAreaMatch =
      some (adminAreaMatchMissing facilityA.Admin1) ∧
    ((lookupFailedCheck (runApiCheck {} none ⟨facilityA, []⟩ 0
        CheckType.admin false).state.tracker 0 CheckType.admin).map
        FailedCheckEntry.failureType = some FailureType.api) ∧
    (runApiCheck {} none ⟨facilityA, []⟩ 0 CheckType.admin false).apiCalls = 0 := by
  have h := admin_check_missing_country_data {} none ⟨facilityA, []⟩ 0 false
    (runApiCheck {} none ⟨facilityA, []⟩ 0 CheckType.admin false) rfl rfl
  exact ⟨h.1, h.2.2.2.1 rfl, h.2.2.2.2⟩

/-- Claim C8: the duplicate relation is symmetric. The 0.001-degree closeness
test is symmetric in the two facilities, and for every dataset the facility
at index j appears among the duplicates found for index i exactly when the
facility at index i appears among the duplicates found for index j. -/
theorem duplicate_relation_symm (data : List Facility) (i j : ℕ)
    (hi : i < data.length) (hj : j < data.length) :
    dupWithin (data.get ⟨j, hj⟩) (data.get ⟨i, hi⟩).x (data.get ⟨i, hi⟩).y =
      dupWithin (data.get ⟨i, hi⟩) (data.get ⟨j, hj⟩).x (data.get ⟨j, hj⟩).y ∧
    ((j, data.get ⟨j, hj⟩) ∈ duplicatesFor data i (data.get ⟨i, hi⟩).x (data.get ⟨i, hi⟩).y ↔
      (i, data.get ⟨i, hi⟩) ∈ duplicatesFor data j (data.get ⟨j, hj⟩).x (data.get ⟨j, hj⟩).y) := by
  constructor
  · unfold dupWithin
    rw [abs_sub_comm ((data.get ⟨j, hj⟩).x), abs_sub_comm ((data.get ⟨j, hj⟩).y)]
  · unfold duplicatesFor
    simp only [List.mem_filter, List.mk_mem_enum_iff_getElem?,
      List.getElem?_eq_getElem hi, List.getElem?_eq_getElem hj]
    unfold dupWithin
    rw [abs_sub_comm ((data.get ⟨j, hj⟩).x), abs_sub_comm ((data.get ⟨j, hj⟩).y)]
    constructor
    · rintro ⟨hmem, hcond⟩
      refine ⟨by simp, ?_⟩
      simp only [Bool.and_eq_true, Bool.not_eq_true', decide_eq_false_iff_not] at hcond ⊢
      exact ⟨fun hcon => hcond.1 hcon.symm, hcond.2⟩
    · rintro ⟨hmem, hcond⟩
      refine ⟨by simp, ?_⟩
      simp only [Bool.and_eq_true, Bool.not_eq_true', decide_eq_false_iff_not] at hcond ⊢
      exact ⟨fun hcon => hcond.1 hcon.symm, hcond.2⟩

/-- Witness for C8: two concrete facilities 0.0005 degrees apart duplicate
each other, in both directions. -/
theorem duplicate_relation_symm_witness :
    ((1, facilityB) ∈ duplicatesFor [facilityA, facilityB] 0 facilityA.x facilityA.y ↔
      (0, facilityA) ∈ duplicatesFor [facilityA, facilityB] 1 facilityB.x facilityB.y) ∧
    (1, facilityB) ∈ duplicatesFor [facilityA, facilityB] 0 facilityA.x facilityA.y := by
  have h := duplicate_relation_symm [facilityA, facilityB] 0 1 (by decide) (by decide)
  have hx : |facilityB.x - facilityA.x| < 1 / 1000 := by
    unfold facilityA facilityB
    rw [show ((34 + 1 / 2000 : ℚ) - 34) = 1 / 2000 by norm_num]
    rw [abs_of_nonneg (by norm_num)]
    norm_num
  have hy : |facilityB.y - facilityA.y| < 1 / 1000 := by
    unfold facilityA facilityB
    norm_num
  have hd : dupWithin facilityB facilityA.x facilityA.y = true := by
    unfold dupWithin
    simp only [Bool.and_eq_true, decide_eq_true_eq]
    exact ⟨hx, hy⟩
  constructor
  · simpa using h.2
  · unfold duplicatesFor
    simp [List.enum, List.enumFrom, List.filter_cons, hd]

/-- A concrete nominatim response locating the point in country code `mw`. -/
def envCountryOk : ApiEnv :=
  { nominatim := some { address := some { country_code := some "mw" } } }

/-- Counterexample to claim C2: an api error on the water check stores the
placeholder `on_water = false` — which passes the water check's own
pass/fail predicate — while the (facilityIndex, water) entry is registered
in the tracker and kept. After this check completes, the tracker holds an
entry whose stored result evaluates as passing. -/
theorem water_api_error_keeps_passing_entry_cex :
    storedPasses (runApiCheck { water := none } none ⟨facilityA, []⟩ 0 CheckType.water
        false).state.facility CheckType.water = true ∧
    (lookupFailedCheck (runApiCheck { water := none } none ⟨facilityA, []⟩ 0 CheckType.water
        false).state.tracker 0 CheckType.water).isSome = true := by
  constructor
  · rfl
  · rfl

/-- Amended claim C2: after `runApiCheck` completes for a pair
(facilityIndex, checkType), the tracker holds no entry for that pair whose
stored result passes the check's own predicate, provided the pair was
untracked before a first-pass run and — the correction — the check is not a
water check whose api call failed: a water api error stores the passing
placeholder `on_water = false` while the tracker entry remains. Removal on a
now-passing retry happens synchronously within the same call. -/
theorem runApiCheck_tracker_no_passing_entry
    (env : ApiEnv) (expectedCountry : Option String) (st : RunState)
    (i : ℕ) (ct : CheckType) (isRetry : Bool)
    (hfirst : isRetry = false → lookupFailedCheck st.tracker i ct = none)
    (hwater : ct = CheckType.water → (env.water).isSome = true) :
    storedPasses (runApiCheck env expectedCountry st i ct isRetry).state.facility ct = true →
    lookupFailedCheck (runApiCheck env expectedCountry st i ct isRetry).state.tracker i ct =
      none := by
  intro hpass
  cases ct with
  | country =>
    rcases hn : env.nominatim with _ | r
    · exfalso
      cases isRetry <;>
        simp [runApiCheck, hn, storedPasses, isValidationFailure] at hpass
    · by_cases hv : decide ((r.address.bind Address.country_code) = expectedCountry) = true
      · cases isRetry
        · simp [runApiCheck, hn, isValidationFailure, hv]
          exact hfirst rfl
        · by_cases hl : (lookupFailedCheck st.tracker i CheckType.country).isSome = true
          · simp [runApiCheck, hn, isValidationFailure, hv, hl,
              lookupFailedCheck_removeFailedCheck_self]
          · have h0 : lookupFailedCheck st.tracker i CheckType.country = none :=
              Option.not_isSome_iff_eq_none.mp hl
            simp [runApiCheck, hn, isValidationFailure, hv, h0]
      · exfalso
        cases isRetry <;>
          simp [runApiCheck, hn, storedPasses, isValidationFailure, hv] at hpass
  | admin =>
    rcases hcd : st.facility.countryData with _ | cd
    · exfalso
      cases isRetry <;>
        simp [runApiCheck, hcd, storedPasses, isValidationFailure] at hpass
    · by_cases hv : admin1Match st.facility.Admin1 (osmAdmin1Of (cd.address.getD {})) = true
      · cases isRetry
        · simp [runApiCheck, hcd, isValidationFailure, hv]
          exact hfirst rfl
        · by_cases hl : (lookupFailedCheck st.tracker i CheckType.admin).isSome = true
          · simp [runApiCheck, hcd, isValidationFailure, hv, hl,
              lookupFailedCheck_removeFailedCheck_self]
          · have h0 : lookupFailedCheck st.tracker i CheckType.admin = none :=
              Option.not_isSome_iff_eq_none.mp hl
            simp [runApiCheck, hcd, isValidationFailure, hv, h0]
      · exfalso
        cases isRetry <;>
          simp [runApiCheck, hcd, storedPasses, isValidationFailure, hv] at hpass
  | road =>
    rcases hn : env.road with _ | r
    · exfalso
      cases isRetry <;>
        simp [runApiCheck, hn, storedPasses, isValidationFailure] at hpass
    · by_cases hv : r.valid.getD false = true
      · cases isRetry
        · simp [runApiCheck, hn, isValidationFailure, hv]
          exact hfirst rfl
        · by_cases hl : (lookupFailedCheck st.tracker i CheckType.road).isSome = true
          · simp [runApiCheck, hn, isValidationFailure, hv, hl,
              lookupFailedCheck_removeFailedCheck_self]
          · have h0 : lookupFailedCheck st.tracker i CheckType.road = none :=
              Option.not_isSome_iff_eq_none.mp hl
            simp [runApiCheck, hn, isValidationFailure, hv, h0]
      · exfalso
        cases isRetry <;>
          simp [runApiCheck, hn, storedPasses, isValidationFailure, hv] at hpass
  | building =>
    rcases hn : env.building with _ | r
    · exfalso
      cases isRetry <;>
        simp [runApiCheck, hn, storedPasses, isValidationFailure] at hpass
    · by_cases hv : r.valid.getD false = true
      · cases isRetry
        · simp [runApiCheck, hn, isValidationFailure, hv]
          exact hfirst rfl
        · by_cases hl : (lookupFailedCheck st.tracker i CheckType.building).isSome = true
          · simp [runApiCheck, hn, isValidationFailure, hv, hl,
              lookupFailedCheck_removeFailedCheck_self]
          · have h0 : lookupFailedCheck st.tracker i CheckType.building = none :=
              Option.not_isSome_iff_eq_none.mp hl
            simp [runApiCheck, hn, isValidationFailure, hv, h0]
      · exfalso
        cases isRetry <;>
          simp [runApiCheck, hn, storedPasses, isValidationFailure, hv] at hpass
  | water =>
    rcases hn : env.water with _ | r
    · exfalso
      have hs := hwater rfl
      rw [hn] at hs
      simp at hs
    · by_cases hv : r.on_water.getD false = true
      · exfalso
        cases isRetry <;>
          simp [runApiCheck, hn, storedPasses, isValidationFailure, hv] at hpass
      · have hv2 : r.on_water.getD false = false := by
          simpa using hv
        cases isRetry
        · simp [runApiCheck, hn, isValidationFailure, hv2]
          exact hfirst rfl
        · by_cases hl : (lookupFailedCheck st.tracker i CheckType.water).isSome = true
          · simp [runApiCheck, hn, isValidationFailure, hv2, hl,
              lookupFailedCheck_removeFailedCheck_self]
          · have h0 : lookupFailedCheck st.tracker i CheckType.water = none :=
              Option.not_isSome_iff_eq_none.mp hl
            simp [runApiCheck, hn, isValidationFailure, hv2, h0]
  | population =>
    rcases hn : env.worldpop with _ | r
    · exfalso
      cases isRetry <;>
        simp [runApiCheck, hn, storedPasses, isValidationFailure] at hpass
    · by_cases hv : decide (r.population.getD 0 > 100) = true
      · cases isRetry
        · simp [runApiCheck, hn, isValidationFailure, populationDensityOf, hv]
          exact hfirst rfl
        · by_cases hl : (lookupFailedCheck st.tracker i CheckType.population).isSome = true
          · simp [runApiCheck, hn, isValidationFailure, populationDensityOf, hv, hl,
              lookupFailedCheck_removeFailedCheck_self]
          · have h0 : lookupFailedCheck st.tracker i CheckType.population = none :=
              Option.not_isSome_iff_eq_none.mp hl
            simp [runApiCheck, hn, isValidationFailure, populationDensityOf, hv, h0]
      · exfalso
        cases isRetry <;>
          simp [runApiCheck, hn, storedPasses, isValidationFailure, populationDensityOf,
            hv] at hpass

/-- Witness for the amended C2: a first-pass country check that passes
leaves no tracked entry for the pair. -/
theorem runApiCheck_tracker_no_passing_entry_witness :
    lookupFailedCheck (runApiCheck envCountryOk (some "mw") ⟨facilityA, []⟩ 0 CheckType.country
        false).state.tracker 0 CheckType.country = none := by
  exact runApiCheck_tracker_no_passing_entry envCountryOk (some "mw") ⟨facilityA, []⟩ 0
    CheckType.country false (fun _ => rfl) (fun hc => nomatch hc) (by rfl)

/-- A concrete tracked failure entry. -/
def entryWaterA : FailedCheckEntry :=
  { facility := facilityA, retryCount := 0, maxRetries := 3, failureType := FailureType.api }

/-- Claim C6: `retryFailedChecks` is a no-op — returning with every piece of
tracked state unchanged — whenever a retry is already in flight
(`isRetrying`) or no failed checks are pending; otherwise the work list it
retries is exactly the snapshot of the tracker taken at invocation,
whatever tracker updates (`ext`) other in-flight validations interleave
while the retry runs. -/
theorem retryFailedChecks_guard_and_snapshot (env : ℕ → CheckType → ApiEnv)
    (expectedCountry : Option String) (ext : ℕ → Tracker → Tracker) (st : GlobalState) :
    ((st.isRetrying = true ∨ countFailedChecks st.tracker = 0) →
      retryFailedChecks env expectedCountry ext st = (st, [])) ∧
    (st.isRetrying = false → countFailedChecks st.tracker ≠ 0 →
      (retryFailedChecks env expectedCountry ext st).2 = st.tracker) := by
  constructor
  · intro h
    unfold retryFailedChecks
    rcases h with h | h <;> simp [h]
  · intro h1 h2
    unfold retryFailedChecks
    simp [h1, h2]

/-- Witness for C6: with a retry already in flight the call changes nothing,
and without one the retried work list is the tracker snapshot. -/
theorem retryFailedChecks_guard_and_snapshot_witness :
    retryFailedChecks (fun _ _ => {}) none (fun _ tr => tr)
        ⟨true, [((0, CheckType.water), entryWaterA)], [facilityA]⟩ =
      (⟨true, [((0, CheckType.water), entryWaterA)], [facilityA]⟩, []) ∧
    (retryFailedChecks (fun _ _ => {}) none (fun _ tr => tr)
        ⟨false, [((0, CheckType.water), entryWaterA)], [facilityA]⟩).2 =
      [((0, CheckType.water), entryWaterA)] := by
  constructor
  · exact (retryFailedChecks_guard_and_snapshot (fun _ _ => {}) none (fun _ tr => tr)
      ⟨true, [((0, CheckType.water), entryWaterA)], [facilityA]⟩).1 (Or.inl rfl)
  · exact (retryFailedChecks_guard_and_snapshot (fun _ _ => {}) none (fun _ tr => tr)
      ⟨false, [((0, CheckType.water), entryWaterA)], [facilityA]⟩).2 rfl (by decide)

end CoordChecker
